import Mathlib

/-!
Shallow embedding of the RPGConsole core (the English-named variant under
`src/models` and `src/services`) together with proofs about its combat,
leveling, equipment, encounter and persistence behaviour.

Conventions of the embedding:
* Python `int` is modelled by `Int` (unbounded, as in CPython).
* Mutating methods become functions returning the updated object (plus the
  Python return value where the method returns one).
* Python `//` is floor division, modelled by `Int.fdiv`.
* `int(e * 1.5)` for an `int` `e` is truncation toward zero of `1.5 * e`;
  for the magnitudes reachable here the float product is exact, and
  truncation toward zero of `3 * e / 2` equals `e + e / 2` with Lean's
  `Int` division (which also truncates toward zero), so it is modelled as
  `e + e / 2`.
* `random.random()` draws are passed in as an explicit rational `q`
  (the code's float literals `0.3` / `0.1` are modelled by the exact
  rationals they denote) and `random.choice` picks are passed in as an
  explicit index taken modulo the list length.
-/

namespace RPG

/-! ## Character model (`src/models/character.py`, `src/models/monster.py`) -/

/-- Python `Character.__init__`: name, health, attack, is_defending. -/
structure Character where
  name : String
  health : Int
  attack : Int
  is_defending : Bool
deriving DecidableEq

/-- Python `Character.take_damage`: `health -= damage; if health < 0: health = 0`. -/
def Character.take_damage (c : Character) (damage : Int) : Character :=
  let h := c.health - damage
  { c with health := if h < 0 then 0 else h }

/-- Python `Character.is_alive`: `health > 0`. -/
def Character.is_alive (c : Character) : Bool :=
  c.health > 0

/-- Python `Character.defend`: `is_defending = True`. -/
def Character.defend (c : Character) : Character :=
  { c with is_defending := true }

/-- Python `Character.reset_defense`: `is_defending = False`. -/
def Character.reset_defense (c : Character) : Character :=
  { c with is_defending := false }

/-- Python `Monster` adds no state to `Character` (its `attack` method is not used by
the combat loop, which reads the `attack` attribute directly). -/
abbrev Monster := Character

/-- Python `Monster.__init__(name, health, attack)`. -/
def Monster.init (name : String) (health attack : Int) : Monster :=
  ⟨name, health, attack, false⟩

/-! ## Items (`src/models/items/*.py`) -/

/-- Python `HealthPotion.__init__` fields. -/
structure HealthPotion where
  heal_amount : Int
  name : String
  description : String
  value : Int
  rarity : String
deriving DecidableEq

/-- Python `HealthPotion()` with all defaults. -/
def HealthPotion.default : HealthPotion :=
  ⟨50, "Health Potion", "Restores 50 HP", 25, "common"⟩

/-- Python `ManaPotion.__init__` fields. -/
structure ManaPotion where
  mana_amount : Int
  name : String
  description : String
  value : Int
  rarity : String
deriving DecidableEq

/-- Python `Food.__init__` fields. -/
structure Food where
  heal_amount : Int
  name : String
  description : String
  value : Int
  rarity : String
deriving DecidableEq

/-- Python `Food()` with all defaults. -/
def Food.default : Food :=
  ⟨20, "Bread", "Restores 20 HP", 5, "common"⟩

/-- Python `Weapon.__init__` fields (including the `Equipment` base fields
`required_level` and `equipped`). -/
structure Weapon where
  name : String
  description : String
  attack_bonus : Int
  value : Int
  rarity : String
  required_level : Int
  equipped : Bool
deriving DecidableEq

/-- Python `Armor.__init__` fields (including the `Equipment` base fields). -/
structure Armor where
  name : String
  description : String
  defense_bonus : Int
  value : Int
  rarity : String
  required_level : Int
  equipped : Bool
deriving DecidableEq

/-- Python `create_starter_sword()`. -/
def create_starter_sword : Weapon :=
  ⟨"Iron Sword", "A basic iron sword for beginners", 5, 50, "common", 1, false⟩

/-- Python `create_leather_armor()`. -/
def create_leather_armor : Armor :=
  ⟨"Leather Armor", "Basic protection made from leather", 3, 30, "common", 1, false⟩

/-- Closed set of concrete `Item` subclasses instantiated by the program. -/
inductive Item where
  | healthPotion (p : HealthPotion)
  | manaPotion (p : ManaPotion)
  | food (f : Food)
  | weapon (w : Weapon)
  | armor (a : Armor)
deriving DecidableEq

/-- Python `item.name` (set by `Item.__init__` in every subclass). -/
def Item.name : Item → String
  | .healthPotion p => p.name
  | .manaPotion p => p.name
  | .food f => f.name
  | .weapon w => w.name
  | .armor a => a.name

/-- Python `isinstance(item, ConsumableItem)`. -/
def Item.is_consumable : Item → Bool
  | .healthPotion _ => true
  | .manaPotion _ => true
  | .food _ => true
  | .weapon _ => false
  | .armor _ => false

/-- Python `isinstance(item, Equipment)`. -/
def Item.is_equipment : Item → Bool
  | .healthPotion _ => false
  | .manaPotion _ => false
  | .food _ => false
  | .weapon _ => true
  | .armor _ => true

/-- Python `Item.to_dict` output: the serialized dictionary of one item
(`quantity` is always `1`: it is set by `Item.__init__` and never changed). -/
structure ItemRecord where
  name : String
  description : String
  value : Int
  rarity : String
  quantity : Int
  type : String
deriving DecidableEq

/-- Python `Item.to_dict`: name, description, value, rarity, quantity and the
subclass name as `type` tag. -/
def Item.to_dict : Item → ItemRecord
  | .healthPotion p => ⟨p.name, p.description, p.value, p.rarity, 1, "HealthPotion"⟩
  | .manaPotion p => ⟨p.name, p.description, p.value, p.rarity, 1, "ManaPotion"⟩
  | .food f => ⟨f.name, f.description, f.value, f.rarity, 1, "Food"⟩
  | .weapon w => ⟨w.name, w.description, w.value, w.rarity, 1, "Weapon"⟩
  | .armor a => ⟨a.name, a.description, a.value, a.rarity, 1, "Armor"⟩

/-! ## Inventory (`src/models/inventory.py`)

`self.items` is a `defaultdict(list)`: insertion-ordered map from item name to
the list of stacked instances.  It is modelled as an association list that
preserves insertion order. -/

structure Inventory where
  max_slots : Int
  items : List (String × List Item)
  gold : Int
deriving DecidableEq

/-- Python `Inventory.__init__(max_slots)`. -/
def Inventory.init (max_slots : Int) : Inventory :=
  ⟨max_slots, [], 0⟩

/-- Python `Inventory.get_total_slots_used`: `sum(len(items) for items in self.items.values())`. -/
def Inventory.get_total_slots_used (inv : Inventory) : Int :=
  (inv.items.map fun s => (s.2.length : Int)).sum

/-- Append `item` to the stack keyed by `key`, creating the key at the end of
the map if absent (`defaultdict(list)` behaviour of `self.items[item.name].append(item)`). -/
def stackAppend (sts : List (String × List Item)) (key : String) (item : Item) :
    List (String × List Item) :=
  match sts with
  | [] => [(key, [item])]
  | (k, l) :: rest =>
    if k = key then (k, l ++ [item]) :: rest
    else (k, l) :: stackAppend rest key item

/-- Python `Inventory.add_item`: fails when `get_total_slots_used() >= max_slots`,
otherwise appends to the stack keyed by the item's name. -/
def Inventory.add_item (inv : Inventory) (item : Item) : Inventory × Bool :=
  if inv.get_total_slots_used ≥ inv.max_slots then (inv, false)
  else ({ inv with items := stackAppend inv.items item.name item }, true)

/-- Pop `n` instances from the tail of the list (`self.items[item_name].pop()`
repeated `quantity` times). -/
def popTail (l : List Item) (n : Nat) : List Item :=
  l.take (l.length - n)

/-- Drop the stack for `key` entirely (Python `del self.items[item_name]`). -/
def stackDelete (sts : List (String × List Item)) (key : String) :
    List (String × List Item) :=
  sts.filter fun s => s.1 ≠ key

/-- Replace the list stored under `key` (the stack is known to be present). -/
def stackSet (sts : List (String × List Item)) (key : String) (l : List Item) :
    List (String × List Item) :=
  sts.map fun s => if s.1 = key then (s.1, l) else s

/-- Python `Inventory.remove_item(name, quantity)`: fails when fewer than `quantity`
instances are present; otherwise pops `quantity` instances from the tail and
deletes the key when the stack becomes empty. -/
def Inventory.remove_item (inv : Inventory) (item_name : String) (quantity : Nat) :
    Inventory × Bool :=
  match inv.items.lookup item_name with
  | none => (inv, false)
  | some stack =>
    if stack.length < quantity then (inv, false)
    else
      let remaining := popTail stack quantity
      if remaining.isEmpty then
        ({ inv with items := stackDelete inv.items item_name }, true)
      else
        ({ inv with items := stackSet inv.items item_name remaining }, true)

/-- Python `Inventory.get_item`: the first instance of the stack, without removal. -/
def Inventory.get_item (inv : Inventory) (item_name : String) : Option Item :=
  match inv.items.lookup item_name with
  | none => none
  | some stack => stack.head?

/-- Python `Inventory.get_all_items`: flattened list of every instance. -/
def Inventory.get_all_items (inv : Inventory) : List Item :=
  inv.items.flatMap fun s => s.2

/-- Python `Inventory.get_unique_items`: item name to stack size. -/
def Inventory.get_unique_items (inv : Inventory) : List (String × Nat) :=
  inv.items.map fun s => (s.1, s.2.length)

/-- Python `Inventory.get_consumables`. -/
def Inventory.get_consumables (inv : Inventory) : List Item :=
  inv.get_all_items.filter Item.is_consumable

/-- Python `Inventory.initialize_starter_gear`: starter sword, leather armor, one
health potion, one food item. -/
def Inventory.initialize_starter_gear (inv : Inventory) : Inventory :=
  let inv := (inv.add_item (.weapon create_starter_sword)).1
  let inv := (inv.add_item (.armor create_leather_armor)).1
  let inv := (inv.add_item (.healthPotion HealthPotion.default)).1
  (inv.add_item (.food Food.default)).1

/-- Python `Inventory.to_dict` output. -/
structure InvRecord where
  max_slots : Int
  gold : Int
  items : List (String × List ItemRecord)
deriving DecidableEq

/-- Python `Inventory.to_dict`. -/
def Inventory.to_dict (inv : Inventory) : InvRecord :=
  ⟨inv.max_slots, inv.gold, inv.items.map fun s => (s.1, s.2.map Item.to_dict)⟩

/-- One step of the reconstruction loop body of `Inventory.from_dict`: only
dictionaries tagged `HealthPotion` or `Weapon` are rebuilt (as a default
`HealthPotion()` resp. `create_starter_sword()`); every other tag is skipped.
The source comments call this "a simplified reconstruction". -/
def fromDictAddItem (inv : Inventory) (d : ItemRecord) : Inventory :=
  if d.type = "HealthPotion" then (inv.add_item (.healthPotion HealthPotion.default)).1
  else if d.type = "Weapon" then (inv.add_item (.weapon create_starter_sword)).1
  else inv

/-- Python `Inventory.from_dict`. -/
def Inventory.from_dict (data : InvRecord) : Inventory :=
  let inv : Inventory := { Inventory.init data.max_slots with gold := data.gold }
  data.items.foldl (fun inv s => s.2.foldl fromDictAddItem inv) inv

/-! ## Hero (`src/models/hero.py`)

In CPython `Character.__init__` assigns the instance attribute `self.attack`
(an int), and plain methods are non-data descriptors, so the instance
attribute shadows the `attack` *method* of `Hero`: every lookup of
`hero.attack` yields the int, and the combat service's call
`hero.attack(monster)` raises `TypeError` (see `process_hero_attack`).  The
`attack` field here is the instance attribute; `Hero.attack_method` below
records the unreachable method body. -/

structure Hero where
  name : String
  health : Int
  attack : Int
  is_defending : Bool
  level : Int
  experience : Int
  experience_to_next : Int
  skill_points : Int
  base_health : Int
  base_attack : Int
  inventory : Inventory
  equipment_attack_bonus : Int
  equipment_defense_bonus : Int
deriving DecidableEq

/-- Python `Hero.__init__(name, health=100, attack=15)`: level 1, 0 XP, threshold
100, no skill points, base stats copied from the arguments, a fresh default
inventory (20 slots) seeded with starter gear, zero equipment bonuses. -/
def Hero.init (name : String) (health attack : Int) : Hero :=
  { name := name
    health := health
    attack := attack
    is_defending := false
    level := 1
    experience := 0
    experience_to_next := 100
    skill_points := 0
    base_health := health
    base_attack := attack
    inventory := (Inventory.init 20).initialize_starter_gear
    equipment_attack_bonus := 0
    equipment_defense_bonus := 0 }

/-- Python `Character.take_damage` as inherited by `Hero`. -/
def Hero.take_damage (h : Hero) (damage : Int) : Hero :=
  let x := h.health - damage
  { h with health := if x < 0 then 0 else x }

/-- Python `Character.is_alive` as inherited by `Hero`. -/
def Hero.is_alive (h : Hero) : Bool :=
  h.health > 0

/-- Python `Character.defend` as inherited by `Hero`. -/
def Hero.defend (h : Hero) : Hero :=
  { h with is_defending := true }

/-- Python `Character.reset_defense` as inherited by `Hero`. -/
def Hero.reset_defense (h : Hero) : Hero :=
  { h with is_defending := false }

/-- Body of the `Hero.attack` method:
`total_attack = self.attack + self.equipment_attack_bonus;
enemy.take_damage(total_attack)`.  Unreachable at runtime: the `attack`
instance attribute shadows this method, so no call site can dispatch to it;
it is kept only as the record of what the source text defines. -/
def Hero.attack_method (h : Hero) (enemy : Monster) : Monster :=
  let total_attack := h.attack + h.equipment_attack_bonus
  enemy.take_damage total_attack

/-- Python `Hero._level_up`: deduct the threshold, raise level and skill points,
grow base and current health by 10 and attack by 2, and multiply the
threshold by 1.5 truncated to int (`int(self.experience_to_next * 1.5)`,
modelled as `e + e / 2`, see the header note). -/
def Hero.level_up_step (h : Hero) : Hero :=
  { h with
    experience := h.experience - h.experience_to_next
    level := h.level + 1
    skill_points := h.skill_points + 1
    base_health := h.base_health + 10
    base_attack := h.base_attack + 2
    health := h.health + 10
    attack := h.attack + 2
    experience_to_next := h.experience_to_next + h.experience_to_next / 2 }

/-- The `while self.experience >= self.experience_to_next` loop of
`Hero.gain_experience`; the returned flag records whether the body ran at
least once.  The conjunct `0 < experience_to_next` is a faithfulness guard:
with a non-positive threshold the Python loop never terminates, and no hero
the program constructs has one (the constructor sets 100 and every update
only increases a positive threshold). -/
def Hero.gain_loop (h : Hero) : Hero × Bool :=
  if _hguard : 0 < h.experience_to_next ∧ h.experience_to_next ≤ h.experience then
    ((Hero.gain_loop h.level_up_step).1, true)
  else (h, false)
termination_by h.experience.toNat
decreasing_by
  simp only [Hero.level_up_step]
  omega

/-- Python `Hero.gain_experience(amount)`: add the XP, then level up while the
threshold is met; returns the updated hero and whether any level-up
occurred. -/
def Hero.gain_experience (h : Hero) (amount : Int) : Hero × Bool :=
  Hero.gain_loop { h with experience := h.experience + amount }

/-! ### Equipment operations (`src/models/hero.py`, `src/models/items/equipment.py`) -/

/-- Python `Weapon.get_stat_bonuses`. -/
def Weapon.get_stat_bonuses (w : Weapon) : List (String × Int) :=
  [("attack", w.attack_bonus)]

/-- Python `Armor.get_stat_bonuses`. -/
def Armor.get_stat_bonuses (a : Armor) : List (String × Int) :=
  [("defense", a.defense_bonus)]

/-- Python `Equipment.can_equip` for a hero target: heroes have a `level` attribute,
so the check is `character.level >= self.required_level`. -/
def Weapon.can_equip (w : Weapon) (h : Hero) : Bool :=
  h.level ≥ w.required_level

/-- Python `Equipment.can_equip` for `Armor`. -/
def Armor.can_equip (a : Armor) (h : Hero) : Bool :=
  h.level ≥ a.required_level

/-- Python `Hero.equip_weapon`: when `weapon.can_equip(self)`, remove the old bonus
from `attack`, read the new bonus from `get_stat_bonuses().get("attack", 0)`,
add it to `attack` and store it; otherwise return `False` unchanged. -/
def Hero.equip_weapon (h : Hero) (w : Weapon) : Hero × Bool :=
  if w.can_equip h then
    let a1 := h.attack - h.equipment_attack_bonus
    let bonus := (w.get_stat_bonuses.lookup "attack").getD 0
    ({ h with attack := a1 + bonus, equipment_attack_bonus := bonus }, true)
  else (h, false)

/-- Python `Hero.unequip_weapon`: subtract the stored bonus from `attack` and clear
it (the weapon argument is ignored by the source). -/
def Hero.unequip_weapon (h : Hero) (_w : Weapon) : Hero :=
  { h with attack := h.attack - h.equipment_attack_bonus,
           equipment_attack_bonus := 0 }

/-- Python `Weapon.equip`: when `can_equip`, add `attack_bonus` directly to
`character.attack` and set `equipped`; the hero's stored
`equipment_attack_bonus` is *not* touched. -/
def Weapon.equip (w : Weapon) (h : Hero) : Hero × Weapon :=
  if w.can_equip h then
    ({ h with attack := h.attack + w.attack_bonus }, { w with equipped := true })
  else (h, w)

/-- Python `Weapon.unequip`: subtract `attack_bonus` from `character.attack` and
clear `equipped` (no `can_equip` guard). -/
def Weapon.unequip (w : Weapon) (h : Hero) : Hero × Weapon :=
  ({ h with attack := h.attack - w.attack_bonus }, { w with equipped := false })

/-- Python `Armor.equip`: when `can_equip`, add `defense_bonus` directly to
`character.attack` ("For now, just add to attack as defense bonus") and set
`equipped`. -/
def Armor.equip (a : Armor) (h : Hero) : Hero × Armor :=
  if a.can_equip h then
    ({ h with attack := h.attack + a.defense_bonus }, { a with equipped := true })
  else (h, a)

/-- Python `Armor.unequip`: subtract `defense_bonus` from `character.attack` and
clear `equipped`. -/
def Armor.unequip (a : Armor) (h : Hero) : Hero × Armor :=
  ({ h with attack := h.attack - a.defense_bonus }, { a with equipped := false })

/-! ### Consumable use (`src/models/items/consumable.py`) -/

/-- Python `ConsumableItem.can_use`: target is a living `Character` (targets are
always heroes in the call sites, so the `isinstance` check is true). -/
def consumable_can_use (h : Hero) : Bool :=
  h.is_alive

/-- Python `HealthPotion.can_use`: living target whose health is below 100. -/
def HealthPotion.can_use (_p : HealthPotion) (h : Hero) : Bool :=
  consumable_can_use h && h.health < 100

/-- Python `HealthPotion.use`: fail when `can_use` is false; otherwise set health to
`min(health + heal_amount, 100)` and return `True`. -/
def HealthPotion.use (p : HealthPotion) (h : Hero) : Hero × Bool :=
  if p.can_use h then
    ({ h with health := min (h.health + p.heal_amount) 100 }, true)
  else (h, false)

/-- Python `ManaPotion.use`: no mana system; succeeds on any living target with no
state change. -/
def ManaPotion.use (_p : ManaPotion) (h : Hero) : Hero × Bool :=
  if consumable_can_use h then (h, true) else (h, false)

/-- Python `Food.use`: fail when the base `can_use` is false; otherwise set health to
`min(health + heal_amount, 100)` and return `True`. -/
def Food.use (f : Food) (h : Hero) : Hero × Bool :=
  if consumable_can_use h then
    ({ h with health := min (h.health + f.heal_amount) 100 }, true)
  else (h, false)

/-- Python `Equipment.use`: fail on a dead target, otherwise toggle
equip/unequip and return `True`. -/
def Weapon.use (w : Weapon) (h : Hero) : Hero × Weapon × Bool :=
  if consumable_can_use h then
    if w.equipped then
      let r := w.unequip h
      (r.1, r.2, true)
    else
      let r := w.equip h
      (r.1, r.2, true)
  else (h, w, false)

/-- Python `Equipment.use` for `Armor`. -/
def Armor.use (a : Armor) (h : Hero) : Hero × Armor × Bool :=
  if consumable_can_use h then
    if a.equipped then
      let r := a.unequip h
      (r.1, r.2, true)
    else
      let r := a.equip h
      (r.1, r.2, true)
  else (h, a, false)

/-- Python `item.use(target)` dispatched over the concrete item classes; returns the
updated hero, the updated item (Python mutates the instance in place) and the
boolean result. -/
def Item.use (it : Item) (h : Hero) : Hero × Item × Bool :=
  match it with
  | .healthPotion p =>
    let r := p.use h
    (r.1, .healthPotion p, r.2)
  | .manaPotion p =>
    let r := p.use h
    (r.1, .manaPotion p, r.2)
  | .food f =>
    let r := f.use h
    (r.1, .food f, r.2)
  | .weapon w =>
    let r := w.use h
    (r.1, .weapon r.2.1, r.2.2)
  | .armor a =>
    let r := a.use h
    (r.1, .armor r.2.1, r.2.2)

/-- Python `Hero.use_item(item_name)`: fetch the first stacked instance, call its
`use`; on success write the (possibly mutated) instance back to the head of
its stack, then remove one instance from the tail of the stack. -/
def Hero.use_item (h : Hero) (item_name : String) : Hero × Bool :=
  match h.inventory.get_item item_name with
  | none => (h, false)
  | some it =>
    let r := it.use h
    if r.2.2 then
      let h1 := r.1
      let stack := (h1.inventory.items.lookup item_name).getD []
      let stack1 := match stack with
        | [] => []
        | _ :: rest => r.2.1 :: rest
      let inv1 := { h1.inventory with items := stackSet h1.inventory.items item_name stack1 }
      let inv2 := (inv1.remove_item item_name 1).1
      ({ h1 with inventory := inv2 }, true)
    else (h, false)

/-! ## Combat service (`src/services/combat_service.py`)

UI reads are modelled as explicit inputs: one `CombatInput` per executed turn
(the menu choice, plus the item sub-choice for choice 3).  `invalid` stands
for any choice outside 1–4. -/

inductive CombatInput where
  | attack
  | defend
  | item (sub : Int)
  | skill
  | invalid
deriving DecidableEq

/-- Python `CombatService._process_hero_attack`: the call
`hero.attack(monster)`.  In CPython `hero.attack` is the int instance
attribute assigned by `Character.__init__` (it shadows the `Hero.attack`
method), so calling it raises `TypeError: int object is not callable`,
modelled as `Except.error`; no damage is ever dealt on this path. -/
def process_hero_attack (_h : Hero) (_m : Monster) : Except String Monster :=
  .error "TypeError: int object is not callable"

/-- Python `CombatService._process_item_usage`: list the consumables; do nothing
when there are none, on cancel (`0`), on an out-of-range index or invalid
input; otherwise use the item with the chosen name via `hero.use_item`. -/
def process_item_usage (h : Hero) (sub : Int) : Hero :=
  let consumables := h.inventory.get_consumables
  if consumables.isEmpty then h
  else if sub = 0 then h
  else if 1 ≤ sub ∧ sub ≤ (consumables.length : Int) then
    match consumables.get? (sub - 1).toNat with
    | none => h
    | some it => (h.use_item it.name).1
  else h

/-- Python `CombatService._process_monster_turn`: a defending hero takes
`monster.attack // 2` (floor division) and the defense flag is cleared right
after that hit; otherwise the full `monster.attack` is applied. -/
def process_monster_turn (h : Hero) (m : Monster) : Hero :=
  if h.is_defending then
    let damage := Int.fdiv m.attack 2
    (h.take_damage damage).reset_defense
  else
    h.take_damage m.attack

/-- Python `CombatService._execute_turn`: reset the hero's defense, run the chosen
action (attack / defend / item / skill placeholder / invalid message), then
let the monster act if it is still alive.  The attack action's `TypeError`
(see `process_hero_attack`) propagates: the monster phase is not reached. -/
def execute_turn (inp : CombatInput) (h : Hero) (m : Monster) :
    Except String (Hero × Monster) :=
  let h := h.reset_defense
  let acted : Except String (Hero × Monster) :=
    match inp with
    | .attack =>
      match process_hero_attack h m with
      | .error e => .error e
      | .ok m1 => .ok (h, m1)
    | .defend => .ok (h.defend, m)
    | .item sub => .ok (process_item_usage h sub, m)
    | .skill => .ok (h, m)
    | .invalid => .ok (h, m)
  match acted with
  | .error e => .error e
  | .ok (h, m) => .ok (if m.is_alive then (process_monster_turn h m, m) else (h, m))

/-- Python `CombatService.start_combat`: loop turns while both are alive; return
`hero.is_alive()` (`true` = hero wins).  The turn inputs are scripted; `none`
means the script ran out while the loop still demanded a choice, and an
uncaught exception inside a turn (the attack action's `TypeError`) aborts
the loop and propagates out of `start_combat`. -/
def start_combat (inputs : List CombatInput) (h : Hero) (m : Monster) :
    Option (Except String (Bool × Hero × Monster)) :=
  match inputs with
  | [] =>
    if h.is_alive && m.is_alive then none
    else some (.ok (h.is_alive, h, m))
  | inp :: rest =>
    if h.is_alive && m.is_alive then
      match execute_turn inp h m with
      | .error e => some (.error e)
      | .ok r => start_combat rest r.1 r.2
    else some (.ok (h.is_alive, h, m))

/-! ## Monster catalog (`src/data/`)

`src/models/world/zone.py` imports `get_monster_names` and
`get_monster_stats` from `data.monsters`, but the module in `src/data/`
exports only Spanish-named functions over Spanish-keyed stat dicts
(`vidas`/`ataque`); the English data module the zone code calls is not in the
repository sources. -/

/-- Base stats of one catalog entry. -/
structure MonsterStats where
  health : Int
  attack : Int
deriving DecidableEq

/-- Modelled from the spec: the missing English monster catalog behind
`get_monster_names`/`get_monster_stats`.  Per spec the catalog is a
process-wide read-only table; its Slime entry has base health 60 and attack
12 (spec section 8), matching the numbers of the repository's Spanish
catalog, whose four entries all carry health 60 / attack 12. -/
def monster_catalog : List (String × MonsterStats) :=
  [("Goblin", ⟨60, 12⟩), ("Ogre", ⟨60, 12⟩), ("Orc", ⟨60, 12⟩), ("Slime", ⟨60, 12⟩)]

/-- Modelled from the spec: `get_monster_names()`. -/
def get_monster_names : List String :=
  monster_catalog.map Prod.fst

/-- Modelled from the spec: `get_monster_stats(name)`; `none` models the
`KeyError` an unknown name raises. -/
def get_monster_stats (name : String) : Option MonsterStats :=
  monster_catalog.lookup name

/-! ## Zones (`src/models/world/zone.py`) -/

/-- Closed variant set of `Zone` subclasses: `SafeZone` and `CombatZone`. -/
inductive Zone where
  | safeZone (name description : String) (danger_level : Int)
      (discovered visited : Bool)
  | combatZone (name description : String) (danger_level : Int)
      (discovered visited : Bool) (monster_types : List String)
deriving DecidableEq

/-- Python `SafeZone.__init__(name, description)`: danger level 0, flags false. -/
def SafeZone.init (name description : String) : Zone :=
  .safeZone name description 0 false false

/-- Python `CombatZone.__init__(name, description, danger_level, monster_types)`;
`monster_types or [...]` falls back to the default list when `None` (or
empty). -/
def CombatZone.init (name description : String) (danger_level : Int)
    (monster_types : Option (List String)) : Zone :=
  let mt := match monster_types with
    | none => ["Goblin", "Ogre", "Orc", "Slime"]
    | some l => if l.isEmpty then ["Goblin", "Ogre", "Orc", "Slime"] else l
  .combatZone name description danger_level false false mt

def Zone.name : Zone → String
  | .safeZone n _ _ _ _ => n
  | .combatZone n _ _ _ _ _ => n

def Zone.description : Zone → String
  | .safeZone _ d _ _ _ => d
  | .combatZone _ d _ _ _ _ => d

def Zone.danger_level : Zone → Int
  | .safeZone _ _ dl _ _ => dl
  | .combatZone _ _ dl _ _ _ => dl

def Zone.discovered : Zone → Bool
  | .safeZone _ _ _ disc _ => disc
  | .combatZone _ _ _ disc _ _ => disc

def Zone.visited : Zone → Bool
  | .safeZone _ _ _ _ v => v
  | .combatZone _ _ _ _ v _ => v

/-- Python `self.__class__.__name__`. -/
def Zone.type_name : Zone → String
  | .safeZone _ _ _ _ _ => "SafeZone"
  | .combatZone _ _ _ _ _ _ => "CombatZone"

/-- Python `SafeZone.can_have_combat` is `False`; `CombatZone.can_have_combat` is
`True`. -/
def Zone.can_have_combat : Zone → Bool
  | .safeZone _ _ _ _ _ => false
  | .combatZone _ _ _ _ _ _ => true

/-- Python `CombatZone._create_zone_monster` with the `random.choice` pick supplied
as an index modulo the available list: filter the zone's allowed types
against the catalog (falling back to the whole catalog when the filter is
empty), look the chosen name up and scale base health by
`+ (danger_level - 1) * 10` and base attack by `+ (danger_level - 1) * 2`.
`none` models the `KeyError` of an unknown catalog name (unreachable, since
the chosen name always comes from the catalog). -/
def create_zone_monster (dl : Int) (monster_types : List String) (pick : Nat) :
    Option Monster :=
  let available := monster_types.filter fun m => get_monster_names.contains m
  let available := if available.isEmpty then get_monster_names else available
  match available.get? (pick % available.length) with
  | none => none
  | some monster_name =>
    match get_monster_stats monster_name with
    | none => none
    | some stats =>
      some (Monster.init monster_name (stats.health + (dl - 1) * 10)
        (stats.attack + (dl - 1) * 2))

/-- Python `Zone.generate_random_encounter` with the `random.random()` draw `q` and
the `random.choice` pick supplied explicitly: no encounter in zones without
combat; otherwise trigger when `q < 0.3 + (danger_level - 1) * 0.1`. -/
def Zone.generate_random_encounter (z : Zone) (q : ℚ) (pick : Nat) :
    Option Monster :=
  if !z.can_have_combat then none
  else
    let encounter_chance : ℚ := 3 / 10 + ((z.danger_level : ℚ) - 1) * (1 / 10)
    if q < encounter_chance then
      match z with
      | .safeZone _ _ _ _ _ => none
      | .combatZone _ _ dl _ _ mt => create_zone_monster dl mt pick
    else none

/-- Python `create_forest()`. -/
def create_forest : Zone :=
  CombatZone.init "Peaceful Forest" "A quiet forest with tall trees and winding paths"
    1 (some ["Goblin", "Slime"])

/-- Python `create_town()`. -/
def create_town : Zone :=
  SafeZone.init "Peaceful Town" "A quiet town where adventurers can rest and resupply"

/-! ## Persistence (`src/models/hero.py`, `src/models/world/zone.py`,
`src/services/game_state_service.py`)

Record structures model the JSON dictionaries.  Fields read through
`dict.get(key, default)` in the deserializers are `Option`s (`none` = key
absent); fields indexed directly (`data["name"]`) are required. -/

/-- Python `Hero.to_dict` output / the `hero` part of a save record. -/
structure HeroRecord where
  name : String
  health : Option Int
  attack : Option Int
  level : Option Int
  experience : Option Int
  experience_to_next : Option Int
  skill_points : Option Int
  base_health : Option Int
  base_attack : Option Int
  inventory : Option InvRecord
deriving DecidableEq

/-- Python `Hero.to_dict`. -/
def Hero.to_dict (h : Hero) : HeroRecord :=
  ⟨h.name, some h.health, some h.attack, some h.level, some h.experience,
    some h.experience_to_next, some h.skill_points, some h.base_health,
    some h.base_attack, some h.inventory.to_dict⟩

/-- Python `Hero.from_dict`: construct `Hero(name, base_health or 100,
base_attack or 15)` (which seeds starter gear), then override every saved
stat, then replace the inventory via `Inventory.from_dict` when present. -/
def Hero.from_dict (data : HeroRecord) : Hero :=
  let hero := Hero.init data.name (data.base_health.getD 100) (data.base_attack.getD 15)
  let hero :=
    { hero with
      health := data.health.getD hero.health
      attack := data.attack.getD hero.attack
      level := data.level.getD 1
      experience := data.experience.getD 0
      experience_to_next := data.experience_to_next.getD 100
      skill_points := data.skill_points.getD 0
      base_health := data.base_health.getD hero.base_health
      base_attack := data.base_attack.getD hero.base_attack }
  match data.inventory with
  | some inv_data => { hero with inventory := Inventory.from_dict inv_data }
  | none => hero

/-- Python `Zone.to_dict` output / the `current_zone` part of a save record. -/
structure ZoneRecord where
  name : String
  description : String
  danger_level : Option Int
  discovered : Option Bool
  visited : Option Bool
  type : Option String
deriving DecidableEq

/-- Python `Zone.to_dict`: name, description, danger level, flags and the subclass
name as `type` tag. -/
def Zone.to_dict (z : Zone) : ZoneRecord :=
  ⟨z.name, z.description, some z.danger_level, some z.discovered,
    some z.visited, some z.type_name⟩

/-- Python `SafeZone.from_dict` (the inherited `Zone.from_dict` with
`cls = SafeZone`): the classmethod calls
`cls(name=..., description=..., danger_level=...)`, but
`SafeZone.__init__` accepts only `name` and `description`, so the call
raises `TypeError` unconditionally; the error is modelled as `Except.error`. -/
def SafeZone.from_dict (_data : ZoneRecord) : Except String Zone :=
  .error "TypeError: SafeZone.__init__ got an unexpected keyword argument danger_level"

/-- Python `CombatZone.from_dict` (the inherited `Zone.from_dict` with
`cls = CombatZone`): build the zone from name, description and
`danger_level or 1`, then set the `discovered`/`visited` flags;
`monster_types` is not serialized, so the constructor default applies. -/
def CombatZone.from_dict (data : ZoneRecord) : Zone :=
  match CombatZone.init data.name data.description (data.danger_level.getD 1) none with
  | .safeZone n d dl _ _ => .safeZone n d dl (data.discovered.getD false) (data.visited.getD false)
  | .combatZone n d dl _ _ mt =>
    .combatZone n d dl (data.discovered.getD false) (data.visited.getD false) mt

/-- One slot-addressed save record as written by
`GameStateService.save_game`. -/
structure SaveRecord where
  hero : HeroRecord
  current_zone : ZoneRecord
  game_version : String
  save_slot : Int
deriving DecidableEq

/-- The record construction of `GameStateService.save_game` (the file write
itself is I/O outside the model). -/
def save_game_record (h : Hero) (current_zone : Zone) (slot : Int) : SaveRecord :=
  ⟨h.to_dict, current_zone.to_dict, "1.0.0", slot⟩

/-- Python `GameStateService._validate_save_data`: the three required top-level
fields are always present on a typed `SaveRecord`. -/
def validate_save_data (_data : SaveRecord) : Bool :=
  true

/-- Python `GameStateService.reconstruct_game_state`: rebuild the hero, then branch
on `zone_data.get("type", "CombatZone")` — the tag `"SafeZone"` selects
`SafeZone.from_dict` (whose `TypeError` is re-raised by the service's
`except` block), and *every other value, including a missing tag,* selects
`CombatZone.from_dict`. -/
def reconstruct_game_state (save_data : SaveRecord) : Except String (Hero × Zone) :=
  let hero := Hero.from_dict save_data.hero
  let zone_type := save_data.current_zone.type.getD "CombatZone"
  if zone_type = "SafeZone" then
    match SafeZone.from_dict save_data.current_zone with
    | .error e => .error e
    | .ok z => .ok (hero, z)
  else
    .ok (hero, CombatZone.from_dict save_data.current_zone)

/-! ## Leveling service (`src/services/leveling_service.py`) -/

/-- Python `LevelingService.XP_REQUIREMENTS`: hand-tuned cumulative XP for levels
1–10; `none` for keys not in the dict. -/
def XP_REQUIREMENTS (level : Int) : Option Int :=
  if level = 1 then some 0
  else if level = 2 then some 100
  else if level = 3 then some 250
  else if level = 4 then some 450
  else if level = 5 then some 700
  else if level = 6 then some 1000
  else if level = 7 then some 1350
  else if level = 8 then some 1750
  else if level = 9 then some 2200
  else if level = 10 then some 2700
  else none

/-- Python `LevelingService.calculate_experience_for_level`: the table when the
level is a key, otherwise `XP_REQUIREMENTS[10] + (level - 10) * 500`. -/
def calculate_experience_for_level (level : Int) : Int :=
  match XP_REQUIREMENTS level with
  | some xp => xp
  | none => 2700 + (level - 10) * 500

/-! ## Specification-side helper definitions -/

/-- Sum of the first `k` XP thresholds consumed when leveling up repeatedly
from threshold `e`, following the threshold update of `Hero.level_up_step`. -/
def thresholds_sum (e : Int) : Nat → Int
  | 0 => 0
  | k + 1 => e + thresholds_sum (e + e / 2) k

/-- The threshold after `k` applications of the `Hero.level_up_step`
threshold update. -/
def next_threshold_iter (e : Int) : Nat → Int
  | 0 => e
  | k + 1 => next_threshold_iter (e + e / 2) k

/-! ## Theorems -/

/-- C5: for every character and every damage amount ≥ 0, `take_damage`
leaves health equal to `max(0, health - amount)`, health is never negative
afterwards (over-damage raises no error: the function is total), and
`is_alive` returns true exactly when health > 0. -/
theorem take_damage_clamps_at_zero (c : Character) (amount : Int)
    (_hamt : 0 ≤ amount) :
    (c.take_damage amount).health = max 0 (c.health - amount) ∧
    0 ≤ (c.take_damage amount).health ∧
    (c.is_alive = true ↔ 0 < c.health) := by
  refine ⟨?_, ?_, ?_⟩ <;>
    simp [Character.take_damage, Character.is_alive] <;>
    omega

/-- Witness for C5: a character with 5 health hit for 9 damage ends at
exactly 0 health. -/
theorem take_damage_clamps_at_zero_witness :
    (0 : Int) ≤ 9 ∧
    (((Character.mk "Rat" 5 3 false).take_damage 9).health = max 0 (5 - 9) ∧
     0 ≤ ((Character.mk "Rat" 5 3 false).take_damage 9).health ∧
     ((Character.mk "Rat" 5 3 false).is_alive = true ↔ 0 < (Character.mk "Rat" 5 3 false).health)) :=
  ⟨by decide, take_damage_clamps_at_zero (Character.mk "Rat" 5 3 false) 9 (by decide)⟩

/-- C3: when the hero is defending, the monster's hit lands for
`monster.attack // 2` (floor division, clamped at zero health) and the
defense flag is cleared immediately after that single hit; a following
monster attack against the now-undefended hero applies the full
`monster.attack`.  Defense therefore never mitigates more than the one next
monster hit and does not persist or stack. -/
theorem defense_halves_exactly_one_hit (h : Hero) (m : Monster)
    (hdef : h.is_defending = true) :
    (process_monster_turn h m).health = max 0 (h.health - Int.fdiv m.attack 2) ∧
    (process_monster_turn h m).is_defending = false ∧
    (process_monster_turn (process_monster_turn h m) m).health =
      max 0 ((process_monster_turn h m).health - m.attack) := by
  unfold process_monster_turn
  simp [hdef, Hero.take_damage, Hero.reset_defense]
  constructor
  · omega
  · omega

/-- Witness for C3: a defending hero with 100 health takes floor(13/2) = 6
from a monster with attack 13, then 13 more undefended. -/
theorem defense_halves_exactly_one_hit_witness :
    ((Hero.init "A" 100 15).defend.is_defending = true) ∧
    ((process_monster_turn ((Hero.init "A" 100 15).defend) (Monster.init "S" 60 13)).health =
      max 0 (((Hero.init "A" 100 15).defend).health - Int.fdiv 13 2) ∧
     (process_monster_turn ((Hero.init "A" 100 15).defend) (Monster.init "S" 60 13)).is_defending = false ∧
     (process_monster_turn (process_monster_turn ((Hero.init "A" 100 15).defend) (Monster.init "S" 60 13))
        (Monster.init "S" 60 13)).health =
      max 0 ((process_monster_turn ((Hero.init "A" 100 15).defend) (Monster.init "S" 60 13)).health - 13)) :=
  ⟨by decide,
   defense_halves_exactly_one_hit ((Hero.init "A" 100 15).defend) (Monster.init "S" 60 13) (by decide)⟩

/-- C4 counterexample: the claim fails on the item-level equip path.  A
fresh hero satisfies `attack = base_attack + equipment_attack_bonus`
(15 = 15 + 0), but after `Weapon.equip` of the starter sword (attack
bonus 5) the hero has attack 20 while `base_attack + equipment_attack_bonus`
is still 15: `Weapon.equip` mutates `attack` without updating the stored
bonus. -/
theorem equip_invariant_item_path_false :
    (Hero.init "Hero" 100 15).attack =
      (Hero.init "Hero" 100 15).base_attack + (Hero.init "Hero" 100 15).equipment_attack_bonus ∧
    ¬ ((create_starter_sword.equip (Hero.init "Hero" 100 15)).1.attack =
       (create_starter_sword.equip (Hero.init "Hero" 100 15)).1.base_attack +
       (create_starter_sword.equip (Hero.init "Hero" 100 15)).1.equipment_attack_bonus) := by
  decide

/-- C4 amended: the invariant `attack = base_attack + equipment_attack_bonus`
is preserved by `Hero.equip_weapon` and `Hero.unequip_weapon` (for every
weapon, whether or not the equip succeeds), but not by the `Equipment` items'
own `equip`/`unequip` methods, which change `attack` directly. -/
theorem equip_invariant_hero_path (h : Hero) (w : Weapon)
    (hinv : h.attack = h.base_attack + h.equipment_attack_bonus) :
    (h.equip_weapon w).1.attack =
      (h.equip_weapon w).1.base_attack + (h.equip_weapon w).1.equipment_attack_bonus ∧
    (h.unequip_weapon w).attack =
      (h.unequip_weapon w).base_attack + (h.unequip_weapon w).equipment_attack_bonus := by
  unfold Hero.equip_weapon Hero.unequip_weapon
  split
  · simp [Weapon.get_stat_bonuses]
    omega
  · simp
    omega

/-- Witness for C4: the invariant holds after a fresh hero equips and after
he unequips the starter sword through the `Hero` methods. -/
theorem equip_invariant_hero_path_witness :
    ((Hero.init "Hero" 100 15).attack =
      (Hero.init "Hero" 100 15).base_attack + (Hero.init "Hero" 100 15).equipment_attack_bonus) ∧
    (((Hero.init "Hero" 100 15).equip_weapon create_starter_sword).1.attack =
      ((Hero.init "Hero" 100 15).equip_weapon create_starter_sword).1.base_attack +
      ((Hero.init "Hero" 100 15).equip_weapon create_starter_sword).1.equipment_attack_bonus ∧
     ((Hero.init "Hero" 100 15).unequip_weapon create_starter_sword).attack =
      ((Hero.init "Hero" 100 15).unequip_weapon create_starter_sword).base_attack +
      ((Hero.init "Hero" 100 15).unequip_weapon create_starter_sword).equipment_attack_bonus) :=
  ⟨by decide, equip_invariant_hero_path (Hero.init "Hero" 100 15) create_starter_sword (by decide)⟩

/-- C2: in the scenario Hero(health 100, attack 15, no equipment bonus)
versus Monster(health 60, attack 12) with the hero choosing Attack, combat
never resolves at all: `hero.attack` is the int instance attribute 15 (it
shadows the method), so the attack action raises `TypeError` on the very
first turn and the error propagates out of `start_combat` — both combatants
still at full health — instead of the claimed victory at 52 health after 5
attacks (an outcome that is also internally inconsistent, since 60/15 = 4). -/
theorem combat_attack_action_crashes :
    (Hero.init "Hero" 100 15).attack = 15 ∧
    start_combat [.attack] (Hero.init "Hero" 100 15) (Monster.init "Monster" 60 12) =
      some (.error "TypeError: int object is not callable") ∧
    start_combat [.attack, .attack, .attack, .attack, .attack]
        (Hero.init "Hero" 100 15) (Monster.init "Monster" 60 12) =
      some (.error "TypeError: int object is not callable") := by
  refine ⟨by decide, rfl, rfl⟩

/-- C8 counterexample: a save record whose zone carries the unknown type tag
"DungeonZone" is not rejected: `reconstruct_game_state` returns a
successfully built CombatZone to the caller. -/
theorem unknown_zone_tag_yields_combatzone :
    (reconstruct_game_state
      ⟨(Hero.init "Hero" 100 15).to_dict,
       ⟨"Mystery", "An unknown place", some 2, some true, some false, some "DungeonZone"⟩,
       "1.0.0", 1⟩).toOption.map (fun r => r.2) =
      some (.combatZone "Mystery" "An unknown place" 2 true false
        ["Goblin", "Ogre", "Orc", "Slime"]) := by
  decide

/-- C8 amended: `reconstruct_game_state` never rejects on the zone type tag.
Every record whose tag (defaulting to "CombatZone" when absent) differs from
"SafeZone" — unknown tags included — is silently rebuilt as a CombatZone;
only the literal tag "SafeZone" avoids that default, and that branch always
fails (with the `TypeError` of `SafeZone.from_dict`) rather than producing a
zone. -/
theorem reconstruct_tag_dispatch (rec : SaveRecord) :
    (rec.current_zone.type.getD "CombatZone" ≠ "SafeZone" →
      reconstruct_game_state rec =
        .ok (Hero.from_dict rec.hero, CombatZone.from_dict rec.current_zone)) ∧
    (rec.current_zone.type.getD "CombatZone" = "SafeZone" →
      reconstruct_game_state rec =
        .error "TypeError: SafeZone.__init__ got an unexpected keyword argument danger_level") := by
  constructor
  · intro htag
    unfold reconstruct_game_state
    simp [htag]
  · intro htag
    unfold reconstruct_game_state
    simp [htag, SafeZone.from_dict]

/-- Witness for C8 amended: the "DungeonZone"-tagged record is rebuilt as a
CombatZone, and a "SafeZone"-tagged record produces the error. -/
theorem reconstruct_tag_dispatch_witness :
    ((⟨(Hero.init "Hero" 100 15).to_dict,
       ⟨"Mystery", "An unknown place", some 2, some true, some false, some "DungeonZone"⟩,
       "1.0.0", 1⟩ : SaveRecord).current_zone.type.getD "CombatZone" ≠ "SafeZone" ∧
     reconstruct_game_state
      ⟨(Hero.init "Hero" 100 15).to_dict,
       ⟨"Mystery", "An unknown place", some 2, some true, some false, some "DungeonZone"⟩,
       "1.0.0", 1⟩ =
      .ok (Hero.from_dict (Hero.init "Hero" 100 15).to_dict,
        CombatZone.from_dict ⟨"Mystery", "An unknown place", some 2, some true, some false, some "DungeonZone"⟩)) ∧
    ((⟨(Hero.init "Hero" 100 15).to_dict,
       ⟨"Town", "A town", some 0, some true, some true, some "SafeZone"⟩,
       "1.0.0", 2⟩ : SaveRecord).current_zone.type.getD "CombatZone" = "SafeZone" ∧
     reconstruct_game_state
      ⟨(Hero.init "Hero" 100 15).to_dict,
       ⟨"Town", "A town", some 0, some true, some true, some "SafeZone"⟩,
       "1.0.0", 2⟩ =
      .error "TypeError: SafeZone.__init__ got an unexpected keyword argument danger_level") :=
  ⟨⟨by decide,
    (reconstruct_tag_dispatch
      ⟨(Hero.init "Hero" 100 15).to_dict,
       ⟨"Mystery", "An unknown place", some 2, some true, some false, some "DungeonZone"⟩,
       "1.0.0", 1⟩).1 (by decide)⟩,
   ⟨by decide,
    (reconstruct_tag_dispatch
      ⟨(Hero.init "Hero" 100 15).to_dict,
       ⟨"Town", "A town", some 0, some true, some true, some "SafeZone"⟩,
       "1.0.0", 2⟩).2 (by decide)⟩⟩

/-- C9: a CombatZone with danger level 1 and allow-list ["Slime"] turns any
below-threshold draw (threshold 0.3 + 0.1 × (danger − 1)) into a Slime with
the catalog base stats health 60 / attack 12, whatever the choice index; at
danger level 3 the same zone produces health 80 / attack 16, i.e. base stats
scaled by +10 × (danger − 1) health and +2 × (danger − 1) attack. -/
theorem slime_encounter_scaling :
    (∀ (q : ℚ) (pick : Nat), q < 3 / 10 →
      (CombatZone.init "Test" "A test zone" 1 (some ["Slime"])).generate_random_encounter q pick =
        some (Monster.init "Slime" 60 12)) ∧
    (∀ (q : ℚ) (pick : Nat), q < 1 / 2 →
      (CombatZone.init "Test" "A test zone" 3 (some ["Slime"])).generate_random_encounter q pick =
        some (Monster.init "Slime" 80 16)) := by
  constructor
  · intro q pick hq
    simp +decide [Zone.generate_random_encounter, CombatZone.init, Zone.can_have_combat,
      Zone.danger_level, create_zone_monster, get_monster_names, get_monster_stats,
      monster_catalog, Monster.init, Nat.mod_one]
    linarith
  · intro q pick hq
    simp +decide [Zone.generate_random_encounter, CombatZone.init, Zone.can_have_combat,
      Zone.danger_level, create_zone_monster, get_monster_names, get_monster_stats,
      monster_catalog, Monster.init, Nat.mod_one]
    linarith

/-- Witness for C9: the draw 0 triggers the encounter in both zones. -/
theorem slime_encounter_scaling_witness :
    ((0 : ℚ) < 3 / 10 ∧
     (CombatZone.init "Test" "A test zone" 1 (some ["Slime"])).generate_random_encounter 0 0 =
       some (Monster.init "Slime" 60 12)) ∧
    ((0 : ℚ) < 1 / 2 ∧
     (CombatZone.init "Test" "A test zone" 3 (some ["Slime"])).generate_random_encounter 0 3 =
       some (Monster.init "Slime" 80 16)) :=
  ⟨⟨by norm_num, slime_encounter_scaling.1 0 0 (by norm_num)⟩,
   ⟨by norm_num, slime_encounter_scaling.2 0 3 (by norm_num)⟩⟩

/-- C10: on a living target, `Food.use` always sets health to
`min(health + heal_amount, 100)` and returns true; `HealthPotion.use` does
the same while the target's health is below the absolute constant 100, and
refuses entirely (returns false with no state change) once health is
at least 100. -/
theorem heal_caps_at_hundred (h : Hero) (p : HealthPotion) (f : Food)
    (halive : h.is_alive = true) :
    ((f.use h).1.health = min (h.health + f.heal_amount) 100 ∧ (f.use h).2 = true) ∧
    (h.health < 100 →
      (p.use h).1.health = min (h.health + p.heal_amount) 100 ∧ (p.use h).2 = true) ∧
    (100 ≤ h.health → p.use h = (h, false)) := by
  refine ⟨?_, ?_, ?_⟩
  · simp [Food.use, consumable_can_use, halive]
  · intro hlt
    simp [HealthPotion.use, HealthPotion.can_use, consumable_can_use, halive, hlt]
  · intro hge
    have hnot : ¬ (h.health < 100) := by omega
    simp [HealthPotion.use, HealthPotion.can_use, consumable_can_use, halive, hnot]

/-- Witness for C10: a living hero at 80 health healed by the default potion
and the default food. -/
theorem heal_caps_at_hundred_witness :
    ((Hero.init "A" 80 15).is_alive = true) ∧
    (((Food.default.use (Hero.init "A" 80 15)).1.health =
        min ((Hero.init "A" 80 15).health + Food.default.heal_amount) 100 ∧
      (Food.default.use (Hero.init "A" 80 15)).2 = true) ∧
     ((Hero.init "A" 80 15).health < 100 →
      (HealthPotion.default.use (Hero.init "A" 80 15)).1.health =
        min ((Hero.init "A" 80 15).health + HealthPotion.default.heal_amount) 100 ∧
      (HealthPotion.default.use (Hero.init "A" 80 15)).2 = true) ∧
     (100 ≤ (Hero.init "A" 80 15).health →
      HealthPotion.default.use (Hero.init "A" 80 15) = (Hero.init "A" 80 15, false))) :=
  ⟨by decide,
   heal_caps_at_hundred (Hero.init "A" 80 15) HealthPotion.default Food.default (by decide)⟩

/-- C1: the save/reconstruct round trip fails on the code.  Saving a fresh
hero in the SafeZone built by `create_town` produces a record whose
reconstruction raises (`SafeZone.from_dict` passes `danger_level` to a
constructor that does not accept it), and saving the same hero in the
CombatZone built by `create_forest` reconstructs a hero whose inventory
holds only the Iron Sword and the Health Potion — the Leather Armor and the
Bread of the starter gear are dropped by `Inventory.from_dict` — so the
observable inventory contents differ from the original's. -/
theorem save_roundtrip_drops_state :
    reconstruct_game_state (save_game_record (Hero.init "Alice" 100 15) create_town 1) =
      .error "TypeError: SafeZone.__init__ got an unexpected keyword argument danger_level" ∧
    ((reconstruct_game_state (save_game_record (Hero.init "Alice" 100 15) create_forest 1)).toOption.map
      fun r => r.1.inventory.get_unique_items) = some [("Iron Sword", 1), ("Health Potion", 1)] ∧
    (Hero.init "Alice" 100 15).inventory.get_unique_items =
      [("Iron Sword", 1), ("Leather Armor", 1), ("Health Potion", 1), ("Bread", 1)] ∧
    ([("Iron Sword", 1), ("Health Potion", 1)] : List (String × Nat)) ≠
      [("Iron Sword", 1), ("Leather Armor", 1), ("Health Potion", 1), ("Bread", 1)] := by
  refine ⟨rfl, by decide, by decide, by decide⟩

/-- Helper for C6: specification of the level-up while-loop.  For every hero
with a positive threshold there is a `k` (the number of iterations) such
that the loop raises level and skill points by `k`, applies the +10
health / +2 attack growth to both base and current stats `k` times, deducts
exactly the `k` consumed thresholds from the experience, iterates the
threshold update `k` times, and reports `true` exactly when `k ≥ 1`. -/
theorem gain_loop_spec_aux (n : Nat) : ∀ (h : Hero), h.experience.toNat ≤ n →
    0 < h.experience_to_next →
    ∃ k : Nat,
      h.gain_loop.1.level = h.level + (k : Int) ∧
      h.gain_loop.1.skill_points = h.skill_points + (k : Int) ∧
      h.gain_loop.1.base_health = h.base_health + 10 * (k : Int) ∧
      h.gain_loop.1.base_attack = h.base_attack + 2 * (k : Int) ∧
      h.gain_loop.1.health = h.health + 10 * (k : Int) ∧
      h.gain_loop.1.attack = h.attack + 2 * (k : Int) ∧
      h.gain_loop.1.experience = h.experience - thresholds_sum h.experience_to_next k ∧
      h.gain_loop.1.experience_to_next = next_threshold_iter h.experience_to_next k ∧
      (h.gain_loop.2 = true ↔ 1 ≤ k) := by
  induction n with
  | zero =>
    intro h hle hpos
    refine ⟨0, ?_⟩
    have hguard : ¬ (0 < h.experience_to_next ∧ h.experience_to_next ≤ h.experience) := by
      omega
    rw [Hero.gain_loop, dif_neg hguard]
    simp [thresholds_sum, next_threshold_iter]
  | succ n ih =>
    intro h hle hpos
    by_cases hguard : 0 < h.experience_to_next ∧ h.experience_to_next ≤ h.experience
    · have hpos1 : 0 < h.level_up_step.experience_to_next := by
        simp only [Hero.level_up_step]
        omega
      have hle1 : h.level_up_step.experience.toNat ≤ n := by
        simp only [Hero.level_up_step]
        omega
      obtain ⟨k, hk1, hk2, hk3, hk4, hk5, hk6, hk7, hk8, hk9⟩ := ih h.level_up_step hle1 hpos1
      refine ⟨k + 1, ?_, ?_, ?_, ?_, ?_, ?_, ?_, ?_, ?_⟩ <;>
        rw [Hero.gain_loop, dif_pos hguard]
      · show h.level_up_step.gain_loop.1.level = _
        rw [hk1]
        simp [Hero.level_up_step]
        ring
      · show h.level_up_step.gain_loop.1.skill_points = _
        rw [hk2]
        simp [Hero.level_up_step]
        ring
      · show h.level_up_step.gain_loop.1.base_health = _
        rw [hk3]
        simp [Hero.level_up_step]
        ring
      · show h.level_up_step.gain_loop.1.base_attack = _
        rw [hk4]
        simp [Hero.level_up_step]
        ring
      · show h.level_up_step.gain_loop.1.health = _
        rw [hk5]
        simp [Hero.level_up_step]
        ring
      · show h.level_up_step.gain_loop.1.attack = _
        rw [hk6]
        simp [Hero.level_up_step]
        ring
      · show h.level_up_step.gain_loop.1.experience =
          h.experience - thresholds_sum h.experience_to_next (k + 1)
        rw [hk7, thresholds_sum]
        simp [Hero.level_up_step]
        ring
      · show h.level_up_step.gain_loop.1.experience_to_next =
          next_threshold_iter h.experience_to_next (k + 1)
        rw [hk8, next_threshold_iter]
        simp [Hero.level_up_step]
      · simp
    · refine ⟨0, ?_⟩
      rw [Hero.gain_loop, dif_neg hguard]
      simp [thresholds_sum, next_threshold_iter]

/-- C6: a single `gain_experience` call that crosses `k` level thresholds
increments the level exactly `k` times (so the level never decreases),
applies the fixed stat growth exactly `k` times (+10 base/current health,
+2 base/current attack, +1 skill point per level), returns true iff `k ≥ 1`,
and leaves the experience equal to the pre-grant XP plus the grant minus the
sum of all consumed thresholds.  The positive-threshold hypothesis is the
termination guard discussed at `Hero.gain_loop`. -/
theorem gain_experience_multi_level_spec (h : Hero) (amount : Int)
    (hpos : 0 < h.experience_to_next) :
    ∃ k : Nat,
      (h.gain_experience amount).1.level = h.level + (k : Int) ∧
      h.level ≤ (h.gain_experience amount).1.level ∧
      (h.gain_experience amount).1.skill_points = h.skill_points + (k : Int) ∧
      (h.gain_experience amount).1.base_health = h.base_health + 10 * (k : Int) ∧
      (h.gain_experience amount).1.base_attack = h.base_attack + 2 * (k : Int) ∧
      (h.gain_experience amount).1.health = h.health + 10 * (k : Int) ∧
      (h.gain_experience amount).1.attack = h.attack + 2 * (k : Int) ∧
      (h.gain_experience amount).1.experience =
        h.experience + amount - thresholds_sum h.experience_to_next k ∧
      ((h.gain_experience amount).2 = true ↔ 1 ≤ k) := by
  obtain ⟨k, hk1, hk2, hk3, hk4, hk5, hk6, hk7, hk8, hk9⟩ :=
    gain_loop_spec_aux ({ h with experience := h.experience + amount }).experience.toNat
      { h with experience := h.experience + amount } le_rfl hpos
  have g1 : (h.gain_experience amount).1.level = h.level + (k : Int) := hk1
  have g8 : (h.gain_experience amount).1.experience =
      h.experience + amount - thresholds_sum h.experience_to_next k := hk7
  refine ⟨k, g1, ?_, hk2, hk3, hk4, hk5, hk6, g8, hk9⟩
  omega

/-- Witness for C6: a fresh hero (threshold 100) granted 250 XP. -/
theorem gain_experience_multi_level_spec_witness :
    (0 : Int) < (Hero.init "A" 100 15).experience_to_next ∧
    (∃ k : Nat,
      ((Hero.init "A" 100 15).gain_experience 250).1.level =
        (Hero.init "A" 100 15).level + (k : Int) ∧
      (Hero.init "A" 100 15).level ≤ ((Hero.init "A" 100 15).gain_experience 250).1.level ∧
      ((Hero.init "A" 100 15).gain_experience 250).1.skill_points =
        (Hero.init "A" 100 15).skill_points + (k : Int) ∧
      ((Hero.init "A" 100 15).gain_experience 250).1.base_health =
        (Hero.init "A" 100 15).base_health + 10 * (k : Int) ∧
      ((Hero.init "A" 100 15).gain_experience 250).1.base_attack =
        (Hero.init "A" 100 15).base_attack + 2 * (k : Int) ∧
      ((Hero.init "A" 100 15).gain_experience 250).1.health =
        (Hero.init "A" 100 15).health + 10 * (k : Int) ∧
      ((Hero.init "A" 100 15).gain_experience 250).1.attack =
        (Hero.init "A" 100 15).attack + 2 * (k : Int) ∧
      ((Hero.init "A" 100 15).gain_experience 250).1.experience =
        (Hero.init "A" 100 15).experience + 250 -
          thresholds_sum (Hero.init "A" 100 15).experience_to_next k ∧
      (((Hero.init "A" 100 15).gain_experience 250).2 = true ↔ 1 ≤ k)) :=
  ⟨by decide, gain_experience_multi_level_spec (Hero.init "A" 100 15) 250 (by decide)⟩

/-- C7 counterexample: the claim's "every leveling path" part fails.  A
fresh hero leveled twice through `Hero.gain_experience` reaches level 3 with
the next-level threshold at 225 (the ×1.5 truncated growth of
`Hero._level_up`), while the leveling-service table increment from level 3
to level 4 is 450 − 250 = 200. -/
theorem levelup_threshold_differs_from_table :
    ((Hero.init "Hero" 100 15).gain_experience 250).1.level = 3 ∧
    ((Hero.init "Hero" 100 15).gain_experience 250).1.experience_to_next = 225 ∧
    calculate_experience_for_level 4 - calculate_experience_for_level 3 = 200 ∧
    (225 : Int) ≠ 200 := by
  refine ⟨?_, ?_, by decide, by decide⟩
  · simp [Hero.gain_experience, Hero.gain_loop, Hero.level_up_step, Hero.init]
  · simp [Hero.gain_experience, Hero.gain_loop, Hero.level_up_step, Hero.init]

/-- C7 amended: the leveling service's requirement function is strictly
increasing over levels 1–10 and extrapolates by +500 per level beyond level
10; but `Hero._level_up` grows its own next-level threshold by ×1.5
truncated, which departs from the table increments from the second level-up
onward, so the extrapolation is not reproduced by that leveling path. -/
theorem xp_table_monotone_and_extrapolates :
    (∀ n : Int, 1 ≤ n → n ≤ 9 →
      calculate_experience_for_level n < calculate_experience_for_level (n + 1)) ∧
    (∀ n : Int, 10 < n →
      calculate_experience_for_level n = calculate_experience_for_level 10 + 500 * (n - 10)) := by
  constructor
  · intro n h1 h9
    interval_cases n <;> decide
  · intro n hn
    have h1 : XP_REQUIREMENTS n = none := by
      unfold XP_REQUIREMENTS
      split_ifs <;> first | rfl | omega
    have h2 : XP_REQUIREMENTS 10 = some 2700 := by decide
    unfold calculate_experience_for_level
    rw [h1, h2]
    ring

/-- Witness for C7 amended: the requirement strictly increases from level 5
to 6, and level 11 requires 2700 + 500. -/
theorem xp_table_monotone_and_extrapolates_witness :
    ((1 : Int) ≤ 5 ∧ (5 : Int) ≤ 9 ∧
      calculate_experience_for_level 5 < calculate_experience_for_level (5 + 1)) ∧
    ((10 : Int) < 11 ∧
      calculate_experience_for_level 11 = calculate_experience_for_level 10 + 500 * (11 - 10)) :=
  ⟨⟨by decide, by decide, xp_table_monotone_and_extrapolates.1 5 (by decide) (by decide)⟩,
   ⟨by decide, xp_table_monotone_and_extrapolates.2 11 (by decide)⟩⟩
